import Mathlib

/-!
Verification development for the hyperopt optimization-coordination engine
(`freqtrade/optimize/hyperopt.py`). Python code is shallowly embedded as
executable Lean definitions: Python `int` becomes `Int`/`Nat` (Python ints are
arbitrary precision, so no wrap-around is modelled), Python `float` values that
only scale integer quantities (the `effort` multiplier) become `Rat`, in-place
list mutation becomes explicit state passing (the function returns the mutated
list alongside its other results), and dict/set state becomes association
lists. The external skopt optimizer's `ask` is a black box: it is modelled as
an arbitrary stream of candidate points.
-/

namespace Hyperopt

/-- `VOID_LOSS = iinfo(int32).max` (hyperopt.py line 70): sentinel marking an
unusable evaluation result. -/
def VOID_LOSS : Int := 2147483647

/-- One evaluation result dict as produced by `_get_results_dict` and then
annotated by `parallel_objective` / `log_results`. Only the fields the
coordination logic reads are modelled; `params_X` stands for
`list(v["params_dict"].values())` (`params_Xi`). -/
structure Trial where
  loss : Int
  is_initial_point : Bool
  is_best : Bool
  current_epoch : Nat
  params_X : List Int
deriving DecidableEq

/-- The slice of skopt `Optimizer` state that `filter_void_losses` touches:
the injected `void_loss` attribute and the observed losses `yi`. -/
structure OptSt where
  void_loss : Int
  yi : List Int
deriving DecidableEq

/-- Python `max` over a non-empty list (defaults to 0 on `[]`, a case the
source never reaches because of the guarding branch). -/
def py_max : List Int → Int
  | [] => 0
  | h :: t => t.foldl max h

/-- The loss substitution performed element-wise by the second branch of
`filter_void_losses` (lines 721-723): a VOID loss is overwritten with the
optimizer's `void_loss`, every other field and every non-VOID loss is kept. -/
def subst_void (vl : Int) (v : Trial) : Trial :=
  if v.loss = VOID_LOSS then { v with loss := vl } else v

/-- `Hyperopt.filter_void_losses` (lines 710-725). The result triple is
(`vals` after in-place mutation, returned `void_filtered` list, optimizer
after in-place mutation): Python mutates `vals` and `opt.void_loss` in place,
which the embedding makes explicit. -/
def filter_void_losses (vals : List Trial) (opt : OptSt) :
    List Trial × List Trial × OptSt :=
  if opt.void_loss = VOID_LOSS ∧ opt.yi = [] then
    (vals, vals.filter (fun v => v.loss ≠ VOID_LOSS), opt)
  else
    let opt' := if opt.void_loss = VOID_LOSS then
      { opt with void_loss := py_max opt.yi } else opt
    let vals' := vals.map (subst_void opt'.void_loss)
    (vals', vals', opt')

/-- The yield behaviour of one call of `Hyperopt.opt_ask_and_tell`
(lines 771-820), single-optimizer mode. `stream i` is the point the black-box
`opt.ask` produces at its `i`-th invocation (the `point()` closure; after
`opt.update_next()` the next stream element plays the replacement point's
role). `evald` is the function-local `evald : Set[Tuple]`, `t` the remaining
`tries`. Per source: a freshly asked point already in `evald` triggers exactly
one replacement ask, and a replacement also in `evald` breaks the loop; every
yielded point is added to `evald` first. The tell/fit part of the loop
(lines 797-809) does not influence which points are yielded, so it is handled
by `filter_void_losses` separately. -/
def opt_ask_and_tell {α : Type} [DecidableEq α] (stream : Nat → α) :
    Nat → Nat → List α → List α
  | 0, _, _ => []
  | t + 1, i, evald =>
    if stream i ∈ evald then
      if stream (i + 1) ∈ evald then []
      else stream (i + 1) :: opt_ask_and_tell stream t (i + 2) (stream (i + 1) :: evald)
    else
      stream i :: opt_ask_and_tell stream t (i + 1) (stream i :: evald)

/-- Python `int(...)` applied to a rational value: truncation toward zero. -/
def py_int (q : Rat) : Int := if 0 ≤ q then Int.floor q else Int.ceil q

/-- The coordination state of the `Hyperopt` object that `log_results`,
`update_max_epoch` and `_save_results` read and write (`__init__` lines
102-129 plus the `self.epochs` list that `start` fills at line 1337).
`saved_trials` models the contents of durable storage (`results_file`);
`none` means nothing has been written. -/
structure HyState where
  current_best_loss : Int
  current_best_epoch : Nat
  epochs_since_last_best : List Nat
  avg_best_occurrence : Nat
  max_epoch : Nat
  max_epoch_reached : Bool
  min_epochs : Nat
  search_space_size : Nat
  effort : Rat
  total_epochs : Nat
  trials : List Trial
  epochs : List Trial
  num_epochs_saved : Nat
  saved_trials : Option (List Trial)
deriving DecidableEq

/-- `self.epochs_limit = lambda: self.total_epochs or self.max_epoch`
(line 109). -/
def epochs_limit (s : HyState) : Nat :=
  if s.total_epochs ≠ 0 then s.total_epochs else s.max_epoch

/-- `Hyperopt.update_max_epoch` (lines 1115-1128). Note the guard: the
recomputation happens only when the new best trial is not an initial point. -/
def update_max_epoch (v : Trial) (current : Nat) (s : HyState) : HyState :=
  if v.is_initial_point = false then
    let gaps := s.epochs_since_last_best ++ [current - s.current_best_epoch]
    let avg := gaps.sum / gaps.length
    let m := (py_int (((current + avg + s.min_epochs : Nat) : Rat) * max 1 s.effort)).toNat
    { s with
      epochs_since_last_best := gaps
      avg_best_occurrence := avg
      current_best_epoch := current
      max_epoch := if m > s.search_space_size then s.search_space_size else m }
  else s

/-- `Hyperopt.is_best_loss` (lines 404-406): strict less-than comparison. -/
def is_best_loss (loss current_best_loss : Int) : Bool :=
  decide (loss < current_best_loss)

/-- `Hyperopt._save_results` (lines 253-264): counts and dumps `self.epochs`
(not `self.trials`), updating `num_epochs_saved` only when `len(self.epochs)`
exceeds it. `save_opts` is out of scope here. -/
def save_results (s : HyState) : HyState :=
  let num_epochs := s.epochs.length
  if num_epochs > s.num_epochs_saved then
    { s with saved_trials := some s.epochs, num_epochs_saved := num_epochs }
  else s

/-- The body of the `for i, v in enumerate(batch_results, 1)` loop of
`Hyperopt.log_results` (lines 999-1009). The accumulator carries the state
and the last enumeration index `i`. -/
def log_results_step (frame_start : Nat) (acc : HyState × Nat) (v : Trial) :
    HyState × Nat :=
  let s := acc.1
  let i := acc.2 + 1
  let best := is_best_loss v.loss s.current_best_loss
  let current := frame_start + i
  let v' := { v with is_best := best, current_epoch := current }
  let s' :=
    if best then
      update_max_epoch v' current { s with current_best_loss := v.loss }
    else s
  ({ s' with trials := s'.trials ++ [v'] }, i)

/-- `Hyperopt.log_results` (lines 993-1020), single-optimizer mode (the
multi-mode branch at lines 1013-1016 only touches the worker-shared backend
tables and is modelled separately). Returns the new state and the loop's
final `i`. -/
def log_results (batch : List Trial) (frame_start : Nat) (s : HyState) :
    HyState × Nat :=
  let p := batch.foldl (log_results_step frame_start) (s, 0)
  let s2 := save_results p.1
  let current := if p.2 = 0 then frame_start + 1 else frame_start + p.2
  let s3 := if current + 1 > epochs_limit s2 then
    { s2 with max_epoch_reached := true } else s2
  (s3, p.2)

/-- The coordination state right after `__init__` (lines 116-129:
`current_best_loss = VOID_LOSS`, `current_best_epoch = 0`, empty gap list,
`num_epochs_saved = 0`, `trials = []`) and `start`'s
`self.epochs = load_previous_results(...)` (line 1337), for a fresh run
(empty results file). `min_epochs`, `search_space_size`, `effort` and
`total_epochs` are the respective configured/derived values. -/
def init_state (min_epochs sss : Nat) (effort : Rat) (total_epochs : Nat) :
    HyState :=
  { current_best_loss := VOID_LOSS
    current_best_epoch := 0
    epochs_since_last_best := []
    avg_best_occurrence := 0
    max_epoch := 0
    max_epoch_reached := false
    min_epochs := min_epochs
    search_space_size := sss
    effort := effort
    total_epochs := total_epochs
    trials := []
    epochs := []
    num_epochs_saved := 0
    saved_trials := none }

/-- The batch loop of `main_loop` as it affects the scoring state: each batch
is handed to `log_results` with `frame_start = epochs_so_far = len(trials)`. -/
def run_batches (s : HyState) : List (List Trial) → HyState
  | [] => s
  | b :: bs => run_batches (log_results b s.trials.length s).1 bs

/-- The three skopt dimension kinds `calc_epochs` distinguishes by
`type(d).__name__` (lines 1081-1086). Only the attributes the size
computation reads are kept (`low`/`high`, `bounds`). -/
inductive Dimension where
  | integer (low high : Int)
  | real (low high : Rat)
  | categorical (bounds : List String)
deriving DecidableEq

/-- Per-dimension discrete size as summed into `n_parameters`
(lines 1080-1086): `Integer: max(1, high - low)`,
`Real: max(10, int(high - low))`, `Categorical: len(bounds)`. The `Int.toNat`
coercions are exact because `max` already forces a positive value whenever the
difference is non-positive. -/
def dim_params : Dimension → Nat
  | .integer low high => max 1 (high - low).toNat
  | .real low high => max 10 (py_int (high - low)).toNat
  | .categorical bounds => bounds.length

/-- Guard for well-formed dimension lists: a skopt `Categorical` always has at
least one category. -/
def has_categories : Dimension → Bool
  | .categorical bounds => !bounds.isEmpty
  | _ => true

/-- The search-space-size computation of `Hyperopt.calc_epochs`
(lines 1076-1094): `n_parameters` sums the per-dimension sizes and the size is
`int(factorial(n_parameters) / (factorial(n_parameters - n_dimensions) *
factorial(n_dimensions)))`, with `OverflowError` mapped to `VOID_LOSS`.
Python's float division is modelled as exact division (the quotient is an
integer, so `int(...)` of the exact quotient is the quotient itself), and the
`OverflowError` raised when converting the quotient to a float is modelled by
the float range bound `2 ^ 1024`. -/
def search_space_size_calc (dims : List Dimension) : Nat :=
  let n_dimensions := dims.length
  let n_parameters := (dims.map dim_params).sum
  let size := n_parameters.factorial /
    ((n_parameters - n_dimensions).factorial * n_dimensions.factorial)
  if 2 ^ 1024 ≤ size then VOID_LOSS.toNat else size

/-- `Hyperopt._get_params_dict` (lines 240-251): dimensions are identified by
their names; the result dict `{d.name: v for d, v in zip(dimensions,
raw_params)}` is modelled as the positional association list. -/
def get_params_dict {α : Type} (dimensions : List String) (raw_params : List α) :
    Except String (List (String × α)) :=
  if raw_params.length ≠ dimensions.length then
    Except.error "Mismatch in number of search-space dimensions."
  else
    Except.ok (dimensions.zip raw_params)

/-- A key of the multi-mode shared results table: the tuple
`tuple(Hyperopt.params_Xi(v))`. -/
abbrev PointKey := List Int

/-- Lookup in the shared table (a `Manager().dict()` modelled as an
association list keyed by point tuples). -/
def tbl_find (k : PointKey) (tbl : List (PointKey × Int × Nat)) :
    Option (Int × Nat) :=
  (tbl.find? (fun e => decide (e.1 = k))).map (fun e => e.2)

/-- `del results_shared[a]`. -/
def tbl_erase (k : PointKey) (tbl : List (PointKey × Int × Nat)) :
    List (PointKey × Int × Nat) :=
  tbl.filter (fun e => decide (e.1 ≠ k))

/-- `Hyperopt.opt_get_past_points` (lines 822-833). For each asked point
present in the table the stored loss `y` is copied into `asked`; the local
variable `counter` is decremented and the entry is deleted when that local
copy drops below 1 — the decremented counter is NOT written back to
`results_shared` (the source has no `results_shared[a] = (y, counter)`), so
the stored count only ever changes by deletion. The embedding reproduces this
exactly. The returned pair is (updated `asked`, table after mutation); the
source's second return value is `len(results_shared)` of that table. -/
def opt_get_past_points (asked : List (PointKey × Option Int))
    (results_shared : List (PointKey × Int × Nat)) :
    List (PointKey × Option Int) × List (PointKey × Int × Nat) :=
  match asked with
  | [] => ([], results_shared)
  | (a, v) :: rest =>
    match tbl_find a results_shared with
    | some (y, counter) =>
      let shared' := if counter - 1 < 1 then tbl_erase a results_shared
        else results_shared
      let r := opt_get_past_points rest shared'
      ((a, some y) :: r.1, r.2)
    | none =>
      let r := opt_get_past_points rest results_shared
      ((a, v) :: r.1, r.2)

/-- The `results_shared.update({tuple(Hyperopt.params_Xi(v)): (v["loss"],
jobs - 1) for v in void_filtered})` step of `Hyperopt.opt_results`
(lines 889-890): each newly published point is entered with reference count
`jobs - 1` (dict update replaces an existing key). -/
def opt_results_update (void_filtered : List Trial) (jobs : Nat)
    (results_shared : List (PointKey × Int × Nat)) :
    List (PointKey × Int × Nat) :=
  void_filtered.foldl
    (fun tbl v => (v.params_X, v.loss, jobs - 1) :: tbl_erase v.params_X tbl)
    results_shared

/-- The skopt `Optimizer` state that `setup_optimizers` (lines 1156-1228)
creates, clears and enqueues: random-state identifier `rs`, the injected
`void_loss` and `void` attributes, observations `Xi`/`yi` and the fitted
`models` (contents irrelevant, only presence matters for `opt_clear`). -/
structure OptM where
  rs : Nat
  void_loss : Int
  void : Int
  Xi : List (List Int)
  yi : List Int
  models : List Unit
deriving DecidableEq

/-- `Hyperopt.opt_clear` (lines 861-865): `del opt.models[:], opt.Xi[:],
opt.yi[:]`. -/
def opt_clear (opt : OptM) : OptM := { opt with models := [], Xi := [], yi := [] }

/-- One freshly generated optimizer of the loop at lines 1180-1188:
`opt.copy(random_state=rs)` with `void_loss = VOID_LOSS`, `void = False`,
`rs = rs`, where `rs = opt.rng.randint(0, iinfo(int32).max)`; the stream
`rng` supplies the successive draws of the parent optimizer's generator. -/
def fresh_opt (rng : Nat → Nat) (k : Nat) : OptM :=
  { rs := rng k, void_loss := VOID_LOSS, void := 0, Xi := [], yi := [], models := [] }

/-- `Hyperopt.load_previous_optimizers` (lines 1053-1065): raises
`OperationalException` only when the file is non-empty and its last entry is
not an `Optimizer` instance (`corrupted`); any list length loads fine. -/
def load_previous_optimizers (file_opts : List OptM) (corrupted : Bool) :
    Except String (List OptM) :=
  if 0 < file_opts.length ∧ corrupted = true then
    Except.error "The file storing optimizers state might be corrupted and cannot be loaded."
  else Except.ok file_opts

/-- The multi-mode branch of `Hyperopt.setup_optimizers` (lines 1156-1206) as
it determines the optimizer queue: restored optimizers are enqueued (cleared)
only when their count equals `max_opts` (`1` when shared, else `n_jobs`,
line 1170); `remaining = max_opts - qsize` fresh optimizers are then
generated. No count mismatch raises: a mismatched restore is silently
discarded. The `Xi`/`yi`/`results_shared` reconstruction (lines 1193-1206)
does not affect the queue and is out of scope of this definition. -/
def setup_optimizers_multi (rng : Nat → Nat) (n_jobs : Nat) (shared : Bool)
    (file_opts : List OptM) (corrupted : Bool) : Except String (List OptM) := do
  let opts ← load_previous_optimizers file_opts corrupted
  let max_opts := if shared then 1 else n_jobs
  let queue := if opts.length = max_opts then opts.map opt_clear else []
  let remaining := max_opts - queue.length
  pure (queue ++ (List.range remaining).map (fresh_opt rng))

/-- C2: VOID filtering policy of `filter_void_losses`. While the optimizer's
void-loss sentinel is unset and it has no observations, every VOID-loss result
is dropped from what is told to the model (and the optimizer is untouched);
once at least one loss has been observed, the sentinel is set (once) to the
maximum observed loss `max(opt.yi)`, and once set it never changes; in both
of the latter cases every VOID-loss result is kept, with its loss replaced by
the sentinel value, instead of being dropped. -/
theorem filter_void_losses_policy (vals : List Trial) (opt : OptSt) :
    (opt.void_loss = VOID_LOSS ∧ opt.yi = [] →
      (filter_void_losses vals opt).2.1 =
        vals.filter (fun v => v.loss ≠ VOID_LOSS) ∧
      (filter_void_losses vals opt).2.2 = opt) ∧
    (opt.void_loss = VOID_LOSS → opt.yi ≠ [] →
      (filter_void_losses vals opt).2.2.void_loss = py_max opt.yi ∧
      (filter_void_losses vals opt).2.1 =
        vals.map (subst_void (py_max opt.yi))) ∧
    (opt.void_loss ≠ VOID_LOSS →
      (filter_void_losses vals opt).2.2.void_loss = opt.void_loss ∧
      (filter_void_losses vals opt).2.1 =
        vals.map (subst_void opt.void_loss)) := by
  refine ⟨fun h => ?_, fun h1 h2 => ?_, fun h1 => ?_⟩
  · simp [filter_void_losses, h.1, h.2]
  · have hc : ¬(opt.void_loss = VOID_LOSS ∧ opt.yi = []) := fun hx => h2 hx.2
    simp [filter_void_losses, hc, h1, h2]
  · have hc : ¬(opt.void_loss = VOID_LOSS ∧ opt.yi = []) := fun hx => h1 hx.1
    simp [filter_void_losses, hc, h1]

/-- Witness for C2: with `yi = [2, 5]` and sentinel still unset, the sentinel
is pinned to `max [2, 5]` and a VOID result is substituted, not dropped. -/
theorem filter_void_losses_policy_witness :
    (filter_void_losses [⟨VOID_LOSS, false, false, 0, []⟩]
        ⟨VOID_LOSS, [2, 5]⟩).2.2.void_loss = py_max [2, 5] ∧
    (filter_void_losses [⟨VOID_LOSS, false, false, 0, []⟩]
        ⟨VOID_LOSS, [2, 5]⟩).2.1 =
      [⟨VOID_LOSS, false, false, 0, []⟩].map (subst_void (py_max [2, 5])) :=
  (filter_void_losses_policy [⟨VOID_LOSS, false, false, 0, []⟩]
    ⟨VOID_LOSS, [2, 5]⟩).2.1 rfl (by decide)

/-- C9: once the void-loss sentinel is in effect (the non-dropping branch of
`filter_void_losses`), the returned list is the same (mutated) `vals` list:
every element whose loss equals VOID has its loss field overwritten with the
optimizer's void-loss value and all other fields preserved, and every other
element is unchanged. -/
theorem filter_void_losses_in_place (vals : List Trial) (opt : OptSt)
    (h : ¬(opt.void_loss = VOID_LOSS ∧ opt.yi = [])) :
    (filter_void_losses vals opt).2.1 = (filter_void_losses vals opt).1 ∧
    (filter_void_losses vals opt).1 =
      vals.map (subst_void (filter_void_losses vals opt).2.2.void_loss) ∧
    (∀ v : Trial, v.loss = VOID_LOSS →
      subst_void (filter_void_losses vals opt).2.2.void_loss v =
        { v with loss := (filter_void_losses vals opt).2.2.void_loss }) ∧
    (∀ v : Trial, v.loss ≠ VOID_LOSS →
      subst_void (filter_void_losses vals opt).2.2.void_loss v = v) := by
  refine ⟨?_, ?_, fun v hv => ?_, fun v hv => ?_⟩
  · simp [filter_void_losses, h]
  · simp [filter_void_losses, h]
  · simp [subst_void, hv]
  · simp [subst_void, hv]

/-- Witness for C9: with the sentinel set to 7, a VOID-loss result is
overwritten in place and the returned list equals the mutated input list. -/
theorem filter_void_losses_in_place_witness :
    (filter_void_losses
        [⟨VOID_LOSS, false, false, 0, []⟩, ⟨2, false, false, 0, []⟩]
        ⟨7, [7]⟩).2.1 =
      (filter_void_losses
        [⟨VOID_LOSS, false, false, 0, []⟩, ⟨2, false, false, 0, []⟩]
        ⟨7, [7]⟩).1 ∧
    (filter_void_losses
        [⟨VOID_LOSS, false, false, 0, []⟩, ⟨2, false, false, 0, []⟩]
        ⟨7, [7]⟩).1 =
      [⟨7, false, false, 0, []⟩, ⟨2, false, false, 0, []⟩] :=
  ⟨(filter_void_losses_in_place
      [⟨VOID_LOSS, false, false, 0, []⟩, ⟨2, false, false, 0, []⟩]
      ⟨7, [7]⟩ (by decide)).1, by decide⟩

/-- Every point yielded by one `opt_ask_and_tell` cycle is fresh: the yielded
list has no duplicates and avoids the initial `evald` set. -/
theorem ask_tell_fresh {α : Type} [DecidableEq α] (stream : Nat → α) :
    ∀ (t i : Nat) (evald : List α),
      (opt_ask_and_tell stream t i evald).Nodup ∧
      ∀ p ∈ opt_ask_and_tell stream t i evald, p ∉ evald := by
  intro t
  induction t with
  | zero => intro i evald; simp [opt_ask_and_tell]
  | succ t ih =>
    intro i evald
    by_cases h1 : stream i ∈ evald
    · by_cases h2 : stream (i + 1) ∈ evald
      · simp [opt_ask_and_tell, h1, h2]
      · have hr := ih (i + 2) (stream (i + 1) :: evald)
        simp only [opt_ask_and_tell, if_pos h1, if_neg h2]
        refine ⟨List.nodup_cons.mpr
          ⟨fun hc => (hr.2 _ hc) (List.mem_cons_self _ _), hr.1⟩, ?_⟩
        intro p hp
        rcases List.mem_cons.mp hp with h | h
        · rw [h]; exact h2
        · exact fun hc => (hr.2 p h) (List.mem_cons_of_mem _ hc)
    · have hr := ih (i + 1) (stream i :: evald)
      simp only [opt_ask_and_tell, if_neg h1]
      refine ⟨List.nodup_cons.mpr
        ⟨fun hc => (hr.2 _ hc) (List.mem_cons_self _ _), hr.1⟩, ?_⟩
      intro p hp
      rcases List.mem_cons.mp hp with h | h
      · rw [h]; exact h1
      · exact fun hc => (hr.2 p h) (List.mem_cons_of_mem _ hc)

/-- C1 (amended): within one ask-and-tell cycle, no point is yielded twice
(the yielded list is duplicate-free) and no point of the evaluated set is
yielded; and when a freshly asked point is already in the evaluated set and
its single replacement is too, the cycle stops and yields nothing further.
Across cycles the evaluated set is rebuilt empty, so the claim's run-wide
guarantee does not hold (see the counterexample). -/
theorem opt_ask_and_tell_dedup {α : Type} [DecidableEq α] (stream : Nat → α)
    (t i : Nat) (evald : List α) :
    (opt_ask_and_tell stream t i evald).Nodup ∧
    (∀ p ∈ opt_ask_and_tell stream t i evald, p ∉ evald) ∧
    (stream i ∈ evald → stream (i + 1) ∈ evald →
      opt_ask_and_tell stream (t + 1) i evald = []) :=
  ⟨(ask_tell_fresh stream t i evald).1, (ask_tell_fresh stream t i evald).2,
    fun h1 h2 => by simp [opt_ask_and_tell, h1, h2]⟩

/-- Witness for C1's amended theorem: with both the asked point and its
replacement already evaluated, the cycle yields zero new points. -/
theorem opt_ask_and_tell_dedup_witness :
    opt_ask_and_tell (fun _ => (0 : Nat)) 2 0 [0] = [] :=
  (opt_ask_and_tell_dedup (fun _ => (0 : Nat)) 1 0 [0]).2.2 (by decide) (by decide)

/-- Counterexample for C1 as stated: the evaluated set `evald` is local to one
`opt_ask_and_tell` call (one batch), so a point yielded and told with a finite
loss in one cycle can be yielded again by a later cycle of the same run when
the black-box optimizer proposes it again. Here point `0` is yielded in a
first cycle, its result (loss 3, non-VOID) passes VOID filtering and is hence
told to the optimizer, and a second cycle yields point `0` again. -/
theorem opt_ask_and_tell_rerun_counterexample :
    0 ∈ opt_ask_and_tell (fun _ => (0 : Nat)) 1 0 [] ∧
    (filter_void_losses [⟨3, false, false, 0, [0]⟩] ⟨VOID_LOSS, []⟩).2.1 =
      [⟨3, false, false, 0, [0]⟩] ∧
    (3 : Int) ≠ VOID_LOSS ∧
    0 ∈ opt_ask_and_tell (fun _ => (0 : Nat)) 1 1 [] := by
  decide

/-- `update_max_epoch` only touches the epoch-budget fields: the best loss is
untouched. -/
theorem update_max_epoch_best_loss (v : Trial) (c : Nat) (s : HyState) :
    (update_max_epoch v c s).current_best_loss = s.current_best_loss := by
  unfold update_max_epoch
  split <;> simp

/-- `update_max_epoch` only touches the epoch-budget fields: the recorded
trials are untouched. -/
theorem update_max_epoch_trials (v : Trial) (c : Nat) (s : HyState) :
    (update_max_epoch v c s).trials = s.trials := by
  unfold update_max_epoch
  split <;> simp

/-- One `log_results` loop step preserves the scoring invariant: the running
best loss never rises above the VOID sentinel, and every recorded VOID-loss
trial carries `is_best = false`. -/
theorem log_results_step_inv (fs : Nat) (s : HyState) (n : Nat) (v : Trial)
    (h1 : s.current_best_loss ≤ VOID_LOSS)
    (h2 : ∀ t ∈ s.trials, t.loss = VOID_LOSS → t.is_best = false) :
    (log_results_step fs (s, n) v).1.current_best_loss ≤ VOID_LOSS ∧
    ∀ t ∈ (log_results_step fs (s, n) v).1.trials,
      t.loss = VOID_LOSS → t.is_best = false := by
  by_cases hb : v.loss < s.current_best_loss
  · have hbl : is_best_loss v.loss s.current_best_loss = true := by
      simp [is_best_loss, hb]
    have hvne : v.loss ≠ VOID_LOSS := fun he => by
      rw [he] at hb; exact absurd (lt_of_lt_of_le hb h1) (lt_irrefl _)
    constructor
    · simp only [log_results_step, hbl, if_true]
      simp [update_max_epoch_best_loss]
      exact le_of_lt (lt_of_lt_of_le hb h1)
    · intro t ht he
      simp only [log_results_step, hbl, if_true] at ht
      simp [update_max_epoch_trials, List.mem_append] at ht
      rcases ht with h | h
      · exact h2 t h he
      · rw [h] at he ⊢
        exact absurd he hvne
  · have hbl : is_best_loss v.loss s.current_best_loss = false := by
      simp [is_best_loss, hb]
    constructor
    · simpa only [log_results_step, hbl, if_false] using h1
    · intro t ht he
      simp only [log_results_step, hbl, if_false] at ht
      simp [List.mem_append] at ht
      rcases ht with h | h
      · exact h2 t h he
      · rw [h]

/-- The whole `log_results` enumeration loop preserves the scoring
invariant. -/
theorem log_results_fold_inv (fs : Nat) (batch : List Trial) :
    ∀ (s : HyState) (n : Nat),
      s.current_best_loss ≤ VOID_LOSS →
      (∀ t ∈ s.trials, t.loss = VOID_LOSS → t.is_best = false) →
      (batch.foldl (log_results_step fs) (s, n)).1.current_best_loss ≤ VOID_LOSS ∧
      ∀ t ∈ (batch.foldl (log_results_step fs) (s, n)).1.trials,
        t.loss = VOID_LOSS → t.is_best = false := by
  induction batch with
  | nil => intro s n h1 h2; exact ⟨h1, h2⟩
  | cons v rest ih =>
    intro s n h1 h2
    have hs := log_results_step_inv fs s n v h1 h2
    simpa [List.foldl_cons] using
      ih (log_results_step fs (s, n) v).1 (log_results_step fs (s, n) v).2 hs.1 hs.2

/-- `save_results` does not change the best loss. -/
theorem save_results_best_loss (s : HyState) :
    (save_results s).current_best_loss = s.current_best_loss := by
  simp only [save_results]
  split <;> simp

/-- `save_results` does not change the recorded trials. -/
theorem save_results_trials (s : HyState) :
    (save_results s).trials = s.trials := by
  simp only [save_results]
  split <;> simp

/-- Setting the `max_epoch_reached` flag does not change the best loss. -/
theorem reached_flag_best_loss (c : Prop) [Decidable c] (s2 : HyState) :
    (if c then { s2 with max_epoch_reached := true } else s2).current_best_loss =
      s2.current_best_loss := by
  split <;> rfl

/-- Setting the `max_epoch_reached` flag does not change the recorded
trials. -/
theorem reached_flag_trials (c : Prop) [Decidable c] (s2 : HyState) :
    (if c then { s2 with max_epoch_reached := true } else s2).trials =
      s2.trials := by
  split <;> rfl

/-- `log_results` preserves the scoring invariant. -/
theorem log_results_inv (batch : List Trial) (fs : Nat) (s : HyState)
    (h1 : s.current_best_loss ≤ VOID_LOSS)
    (h2 : ∀ t ∈ s.trials, t.loss = VOID_LOSS → t.is_best = false) :
    (log_results batch fs s).1.current_best_loss ≤ VOID_LOSS ∧
    ∀ t ∈ (log_results batch fs s).1.trials,
      t.loss = VOID_LOSS → t.is_best = false := by
  have hf := log_results_fold_inv fs batch s 0 h1 h2
  simp only [log_results]
  rw [reached_flag_best_loss, reached_flag_trials, save_results_best_loss,
    save_results_trials]
  exact hf

/-- The batch loop preserves the scoring invariant. -/
theorem run_batches_inv (batches : List (List Trial)) :
    ∀ s : HyState,
      s.current_best_loss ≤ VOID_LOSS →
      (∀ t ∈ s.trials, t.loss = VOID_LOSS → t.is_best = false) →
      (run_batches s batches).current_best_loss ≤ VOID_LOSS ∧
      ∀ t ∈ (run_batches s batches).trials,
        t.loss = VOID_LOSS → t.is_best = false := by
  induction batches with
  | nil => intro s h1 h2; exact ⟨h1, h2⟩
  | cons b bs ih =>
    intro s h1 h2
    have hb := log_results_inv b s.trials.length s h1 h2
    exact ih _ hb.1 hb.2

/-- C3: a trial recorded during a run whose loss equals the VOID sentinel is
never flagged as the global best: the best loss starts at the VOID sentinel,
only strictly smaller losses replace it, so `loss < current_best_loss` is
false whenever `loss = VOID_LOSS`. -/
theorem void_trial_never_best (batches : List (List Trial)) (mn sss : Nat)
    (eff : Rat) (te : Nat) (t : Trial)
    (ht : t ∈ (run_batches (init_state mn sss eff te) batches).trials)
    (hv : t.loss = VOID_LOSS) : t.is_best = false :=
  (run_batches_inv batches (init_state mn sss eff te) (le_refl _)
    (by intro t ht; simp [init_state] at ht)).2 t ht hv

/-- Witness for C3: a one-batch run whose only trial scores VOID records that
trial with `is_best = false`. -/
theorem void_trial_never_best_witness :
    (⟨VOID_LOSS, false, false, 1, []⟩ : Trial) ∈
      (run_batches (init_state 0 0 1 0)
        [[⟨VOID_LOSS, false, false, 0, []⟩]]).trials ∧
    (⟨VOID_LOSS, false, false, 1, []⟩ : Trial).is_best = false :=
  ⟨by decide,
   void_trial_never_best [[⟨VOID_LOSS, false, false, 0, []⟩]] 0 0 1 0
     ⟨VOID_LOSS, false, false, 1, []⟩ (by decide) rfl⟩

/-- C4 (code bug): after a completed batch the accumulated trial count
exceeds the persisted count, yet nothing is written to storage and the saved
count is not updated: `log_results` appends new results to `self.trials`
(line 1009) while `_save_results` measures and dumps `self.epochs`
(lines 257-260), a list that never receives new trials during a run. Here a
fresh run evaluates one batch of one trial: afterwards one trial is
accumulated, zero were ever persisted, and storage was never written. -/
theorem new_trials_not_persisted :
    (log_results [⟨5, true, false, 0, []⟩] 0 (init_state 0 1000 1 0)).1.trials.length = 1 ∧
    (log_results [⟨5, true, false, 0, []⟩] 0 (init_state 0 1000 1 0)).1.num_epochs_saved = 0 ∧
    (log_results [⟨5, true, false, 0, []⟩] 0 (init_state 0 1000 1 0)).1.saved_trials = none := by
  decide

/-- C7 (amended): after an improvement of the global best by a trial that is
NOT an initial point, `update_max_epoch` recomputes the epoch ceiling as
(epoch of the new best + running average of the epoch gaps between
improvements, the new gap included + the minimum-epochs value) multiplied by
the effort factor `max(1, effort)`, truncated to an integer, and clamped to
the estimated search-space size; the epoch of the new best is recorded. The
claim as frozen asserts this for every improvement; improvements by
initial-point trials skip the recomputation (see the counterexample). -/
theorem update_max_epoch_recompute (v : Trial) (current : Nat) (s : HyState)
    (h : v.is_initial_point = false) :
    (update_max_epoch v current s).current_best_epoch = current ∧
    (update_max_epoch v current s).max_epoch =
      min s.search_space_size
        ((py_int (((current +
            (s.epochs_since_last_best ++ [current - s.current_best_epoch]).sum /
              (s.epochs_since_last_best ++ [current - s.current_best_epoch]).length +
            s.min_epochs : Nat) : Rat) * max 1 s.effort)).toNat) := by
  have hg : ∀ a b : Nat, (if b > a then a else b) = min a b := by
    intro a b
    rw [Nat.min_def]
    split <;> split <;> omega
  simp only [update_max_epoch, h, if_true]
  exact ⟨trivial, hg _ _⟩

/-- Witness for C7's amended theorem: a non-initial-point improvement at
epoch 5, with one previous best at epoch 2, no earlier gaps, `min_epochs = 4`
and `effort = 1`, sets the ceiling to `(5 + 3 + 4) * 1 = 12`, below the
search-space size 1000. -/
theorem update_max_epoch_recompute_witness :
    (update_max_epoch ⟨3, false, true, 0, []⟩ 5
      ⟨10, 2, [], 0, 0, false, 4, 1000, 1, 0, [], [], 0, none⟩).max_epoch = 12 := by
  have h := (update_max_epoch_recompute ⟨3, false, true, 0, []⟩ 5
    ⟨10, 2, [], 0, 0, false, 4, 1000, 1, 0, [], [], 0, none⟩ rfl).2
  norm_num [py_int, Int.toNat_ofNat] at h
  exact h

/-- Counterexample for C7 as stated: an improvement of the global best by an
initial-point trial does not recompute the ceiling. Starting from best loss
10, ceiling 100, `min_epochs = 5`, `effort = 1` and search-space size
1000000, a batch whose single trial improves the best (loss 3, recorded with
`is_best = true`) leaves the ceiling at 100, even though the claim's formula
`(best_epoch + avg_gap + min_epochs) * effort` evaluates to `(1 + 1 + 5) * 1
= 7` at this state. -/
theorem update_max_epoch_initial_point_counterexample :
    (log_results [⟨3, true, false, 0, []⟩] 0
      ⟨10, 0, [], 0, 100, false, 5, 1000000, 1, 0, [], [], 0, none⟩).1.max_epoch = 100 ∧
    (log_results [⟨3, true, false, 0, []⟩] 0
      ⟨10, 0, [], 0, 100, false, 5, 1000000, 1, 0, [], [], 0, none⟩).1.trials =
      [⟨3, true, true, 1, []⟩] ∧
    min 1000000 ((py_int (((1 + 1 + 5 : Nat) : Rat) * max 1 (1 : Rat))).toNat) = 7 ∧
    (100 : Nat) ≠ 7 := by
  refine ⟨by decide, by decide, ?_, by decide⟩
  norm_num [py_int, Int.toNat_ofNat]
  decide

/-- C5 (amended): in multi-optimizer mode, when the count of optimizers
restored from persisted storage differs from the configured count
(`1` when shared, else the worker count), `setup_optimizers` does NOT raise:
the restored optimizers are silently discarded and the full count of fresh
optimizers is generated instead. -/
theorem setup_optimizers_mismatch (rng : Nat → Nat) (n_jobs : Nat)
    (shared : Bool) (file_opts : List OptM)
    (h : file_opts.length ≠ (if shared then 1 else n_jobs)) :
    setup_optimizers_multi rng n_jobs shared file_opts false =
      Except.ok ((List.range (if shared then 1 else n_jobs)).map (fresh_opt rng)) := by
  simp [setup_optimizers_multi, load_previous_optimizers, h]

/-- Witness for C5's amended theorem: one restored optimizer against two
configured jobs is discarded and two fresh optimizers are generated. -/
theorem setup_optimizers_mismatch_witness :
    setup_optimizers_multi (fun k => k) 2 false
      [⟨9, VOID_LOSS, 0, [], [], []⟩] false =
      Except.ok ((List.range 2).map (fresh_opt (fun k => k))) := by
  have h := setup_optimizers_mismatch (fun k => k) 2 false
    [⟨9, VOID_LOSS, 0, [], [], []⟩] (by decide)
  simpa using h

/-- Counterexample for C5 as stated: restoring two persisted optimizers with
three configured workers (multi mode, non-shared) returns successfully with
three freshly generated optimizers — no fatal error is raised. -/
theorem setup_optimizers_mismatch_counterexample :
    setup_optimizers_multi (fun k => 100 + k) 3 false
      [⟨7, VOID_LOSS, 0, [], [], []⟩, ⟨8, VOID_LOSS, 0, [], [], []⟩] false =
      Except.ok [⟨100, VOID_LOSS, 0, [], [], []⟩, ⟨101, VOID_LOSS, 0, [], [], []⟩,
        ⟨102, VOID_LOSS, 0, [], [], []⟩] := by
  rfl

/-- C6 (code bug): an entry of the shared already-evaluated-points table is
created with reference count `jobs - 1`, but `opt_get_past_points` never
writes the decremented counter back to the table: with `jobs = 3` the entry
is created with count 2, a peer that consumes the point reads its loss (the
`asked` dict is updated) yet the stored count stays 2, and after a second
peer consumes it the entry is still present with count 2 — it is never
removed, contrary to the claimed decrement-to-zero-then-remove discipline. -/
theorem shared_counter_not_decremented :
    opt_results_update [⟨5, false, false, 0, [0]⟩] 3 [] = [([0], 5, 2)] ∧
    (opt_get_past_points [([0], none)] [([0], 5, 2)]).1 = [([0], some 5)] ∧
    (opt_get_past_points [([0], none)] [([0], 5, 2)]).2 = [([0], 5, 2)] ∧
    (opt_get_past_points [([0], none)]
      ((opt_get_past_points [([0], none)] [([0], 5, 2)]).2)).2 = [([0], 5, 2)] := by
  decide

/-- Every well-formed dimension contributes at least one discrete parameter
to `n_parameters`. -/
theorem one_le_dim_params (d : Dimension) (h : has_categories d = true) :
    1 ≤ dim_params d := by
  cases d with
  | integer low high => exact le_max_left _ _
  | real low high =>
    calc (1 : Nat) ≤ 10 := by norm_num
      _ ≤ _ := le_max_left _ _
  | categorical bounds =>
    simp [has_categories, List.isEmpty_iff] at h
    simpa [dim_params] using List.length_pos.mpr h

/-- `n_parameters` dominates `n_dimensions` whenever every categorical
dimension is non-empty. -/
theorem length_le_sum_dim_params (dims : List Dimension)
    (h : ∀ d ∈ dims, has_categories d = true) :
    dims.length ≤ (dims.map dim_params).sum := by
  induction dims with
  | nil => simp
  | cons d rest ih =>
    simp only [List.map_cons, List.sum_cons, List.length_cons]
    have h1 := one_le_dim_params d (h d (List.mem_cons_self _ _))
    have h2 := ih (fun x hx => h x (List.mem_cons_of_mem _ hx))
    omega

/-- C8: the estimated search-space size is the binomial coefficient
`n_parameters choose n_dimensions`, where `n_parameters` sums the
per-dimension discrete sizes (`Integer: max(1, high - low)`;
`Real: max(10, int(high - low))`; `Categorical: len(bounds)`), and a quotient
too large for a Python float (the `OverflowError` bound `2 ^ 1024`) is
replaced by the VOID sentinel. The hypothesis rules out empty categorical
dimensions (impossible in skopt), for which Python's `factorial` of the
negative difference would raise instead. -/
theorem search_space_size_spec (dims : List Dimension)
    (h : ∀ d ∈ dims, has_categories d = true) :
    search_space_size_calc dims =
      if 2 ^ 1024 ≤ ((dims.map dim_params).sum).choose dims.length
      then VOID_LOSS.toNat
      else ((dims.map dim_params).sum).choose dims.length := by
  have hle := length_le_sum_dim_params dims h
  have hchoose :
      ((dims.map dim_params).sum).choose dims.length =
        ((dims.map dim_params).sum).factorial /
          (((dims.map dim_params).sum - dims.length).factorial *
            (dims.length).factorial) := by
    rw [Nat.choose_eq_factorial_div_factorial hle, Nat.mul_comm]
  simp only [search_space_size_calc]
  rw [← hchoose]

/-- Witness for C8: one integer dimension of width 10 and one two-category
dimension give `n_parameters = 12`, `n_dimensions = 2` and size
`12 choose 2 = 66` (no overflow). -/
theorem search_space_size_spec_witness :
    search_space_size_calc
      [Dimension.integer 0 10, Dimension.categorical ["a", "b"]] = 66 := by
  have h := search_space_size_spec
    [Dimension.integer 0 10, Dimension.categorical ["a", "b"]] (by decide)
  have hs : (([Dimension.integer 0 10,
      Dimension.categorical ["a", "b"]].map dim_params).sum) = 12 := by decide
  have hl : ([Dimension.integer 0 10,
      Dimension.categorical ["a", "b"]] : List Dimension).length = 2 := rfl
  rw [hs, hl] at h
  rw [h, if_neg]
  · decide
  · intro hc
    have h2 : (2 : Nat) ^ 7 ≤ 2 ^ 1024 := Nat.pow_le_pow_right (by decide) (by decide)
    have h3 : Nat.choose 12 2 = 66 := by decide
    have h4 : (2 : Nat) ^ 7 = 128 := by decide
    omega

/-- C10: converting a raw candidate-point list to named parameters fails with
the `ValueError` exactly when the list's length differs from the number of
search-space dimensions; otherwise it returns the dict pairing each
dimension's name with the value at the same position. -/
theorem get_params_dict_spec {α : Type} (dimensions : List String)
    (raw_params : List α) :
    (raw_params.length ≠ dimensions.length →
      get_params_dict dimensions raw_params =
        Except.error "Mismatch in number of search-space dimensions.") ∧
    (raw_params.length = dimensions.length →
      get_params_dict dimensions raw_params =
        Except.ok (dimensions.zip raw_params) ∧
      (dimensions.zip raw_params).length = dimensions.length ∧
      ∀ i (h1 : i < dimensions.length) (h2 : i < raw_params.length)
        (hz : i < (dimensions.zip raw_params).length),
        (dimensions.zip raw_params).get ⟨i, hz⟩ =
          (dimensions.get ⟨i, h1⟩, raw_params.get ⟨i, h2⟩)) := by
  constructor
  · intro h
    simp [get_params_dict, h]
  · intro h
    refine ⟨by simp [get_params_dict, h], by simp [List.length_zip, h], ?_⟩
    intro i h1 h2 hz
    simp [List.get_eq_getElem, List.getElem_zip]

/-- Witness for C10: a matching pair of names and values zips positionally;
a short value list is rejected with the `ValueError` message. -/
theorem get_params_dict_spec_witness :
    get_params_dict ["a", "b"] [(1 : Nat), 2] = Except.ok [("a", 1), ("b", 2)] ∧
    get_params_dict ["a", "b"] [(1 : Nat)] =
      Except.error "Mismatch in number of search-space dimensions." :=
  ⟨((get_params_dict_spec ["a", "b"] [(1 : Nat), 2]).2 rfl).1,
   (get_params_dict_spec ["a", "b"] [(1 : Nat)]).1 (by decide)⟩

end Hyperopt
